import Mathlib

/-!
Shallow embedding of the connectivity and control-plane supervisor of the
`enigma-machine` firmware (`src/enigma_machine.py`), covering:
`Utils.decode_utf`, `BLE.observe_characteristic`, `WiFi.grab`,
`WiFi.update_credentials`, `Config.__init__` / `Config.set`, and the
`EnigmaMachine` callbacks `set_wifi_ssid_cb`, `set_wifi_pass_cb`,
`set_status_cb`, `get_status_cb`.

Byte strings are modelled as `List Nat` (each entry a byte value), the
in-memory JSON config document as an association list of string pairs, the
filesystem visible to `Config` as a small explicit state, and the perpetual
asyncio loops as step functions driven by lists of externally supplied
events.
-/

namespace Utils

/-- Is `b` a UTF-8 continuation byte (`0x80 ≤ b ≤ 0xBF`)? -/
def isCont (b : Nat) : Bool := 0x80 ≤ b && b ≤ 0xBF

/-- Standard UTF-8 decoding of a byte list into characters, rejecting
overlong encodings, surrogates and code points above `0x10FFFF`, exactly as
Python's `bytes.decode('utf-8')` does.  Returns `none` on malformed input. -/
def utf8DecodeChars : List Nat → Option (List Char)
  | [] => some []
  | b1 :: rest =>
    if b1 < 0x80 then
      match utf8DecodeChars rest with
      | some cs => some (Char.ofNat b1 :: cs)
      | none => none
    else if b1 < 0xC2 then none
    else if b1 < 0xE0 then
      match rest with
      | b2 :: rest2 =>
        if isCont b2 then
          match utf8DecodeChars rest2 with
          | some cs => some (Char.ofNat ((b1 - 0xC0) * 0x40 + (b2 - 0x80)) :: cs)
          | none => none
        else none
      | [] => none
    else if b1 < 0xF0 then
      match rest with
      | b2 :: b3 :: rest3 =>
        if (if b1 = 0xE0 then 0xA0 ≤ b2 && b2 ≤ 0xBF
            else if b1 = 0xED then 0x80 ≤ b2 && b2 ≤ 0x9F
            else isCont b2) && isCont b3 then
          match utf8DecodeChars rest3 with
          | some cs =>
            some (Char.ofNat ((b1 - 0xE0) * 0x1000 + (b2 - 0x80) * 0x40 + (b3 - 0x80)) :: cs)
          | none => none
        else none
      | _ => none
    else if b1 < 0xF5 then
      match rest with
      | b2 :: b3 :: b4 :: rest4 =>
        if (if b1 = 0xF0 then 0x90 ≤ b2 && b2 ≤ 0xBF
            else if b1 = 0xF4 then 0x80 ≤ b2 && b2 ≤ 0x8F
            else isCont b2) && isCont b3 && isCont b4 then
          match utf8DecodeChars rest4 with
          | some cs =>
            some (Char.ofNat ((b1 - 0xF0) * 0x40000 + (b2 - 0x80) * 0x1000
                    + (b3 - 0x80) * 0x40 + (b4 - 0x80)) :: cs)
          | none => none
        else none
      | _ => none
    else none

/-- `Utils.decode_utf`: `data.decode('utf-8')`, with every decoding
exception caught, logged and turned into a `None` return value. -/
def decode_utf (data : List Nat) : Option String :=
  (utf8DecodeChars data).map String.mk

end Utils

namespace BLE

/-- One iteration's worth of external input to an
`observe_characteristic` loop: what `await characteristic.written()`
delivers — a write event carrying a byte payload, a
`CancelledError`, or some other exception. -/
inductive ObsEvent
  | written (data : List Nat)
  | cancelled
  | error
deriving DecidableEq, Repr

/-- Observable action performed by an `observe_characteristic` iteration:
the decode-failure log line produced inside `Utils.decode_utf`, or an
invocation of the injected `prop_setter` handler with the decoded value. -/
inductive ObsAction
  | logDecodeError
  | handlerCall (arg : Option String)
deriving DecidableEq, Repr

/-- `BLE.observe_characteristic`: the perpetual observer loop, run over a
list of externally supplied events.  A non-empty payload (`if data:`) is
decoded and passed to the handler — including the `none` result of a failed
decode; an empty payload is skipped; any non-cancellation exception is
caught and the loop continues; `CancelledError` breaks the loop. -/
def observe_characteristic : List ObsEvent → List ObsAction
  | [] => []
  | ObsEvent.written data :: rest =>
    if data.isEmpty then
      observe_characteristic rest
    else
      match Utils.decode_utf data with
      | some s => ObsAction.handlerCall (some s) :: observe_characteristic rest
      | none => ObsAction.logDecodeError :: ObsAction.handlerCall none
                  :: observe_characteristic rest
  | ObsEvent.cancelled :: _ => []
  | ObsEvent.error :: rest => observe_characteristic rest

end BLE

namespace WiFi

/-- A call to the injected `on_state_change` callback (`wifi=True` or
`wifi=False`). -/
inductive Report
  | wifiUp
  | wifiDown
deriving DecidableEq, Repr

/-- State of a `WiFi` object: the cached credentials, the cached
`self.connected` flag, the failure counter, and the actual association
state of the underlying `wlan` interface. -/
structure State where
  ssid : String
  password : String
  connected : Bool
  failure_count : Nat
  wlanConnected : Bool
deriving DecidableEq, Repr

/-- `max_retries = 3`: max retry attempts before giving up. -/
def max_retries : Nat := 3

/-- External input to one iteration of the `WiFi.grab` loop: either the
iteration runs normally and, if an association attempt is made, the
environment decides whether `wlan.isconnected()` becomes true within the
10-second polling window (`ok succeeds`); or an `OSError` is raised by a
hardware call (`oserror`); or the task is cancelled (`cancelled`). -/
inductive CycleEnv
  | ok (succeeds : Bool)
  | oserror
  | cancelled
deriving DecidableEq, Repr

/-- Result of one iteration of the `WiFi.grab` while-loop. -/
structure CycleResult where
  state : State
  reports : List Report
  attempted : Bool
  looping : Bool
deriving DecidableEq, Repr

/-- One iteration of the `WiFi.grab` loop.  `attempted` records whether
`wlan.connect` was invoked this cycle; `looping = false` means the
iteration ended in `break`, terminating the loop. -/
def grabCycle (st : State) (env : CycleEnv) : CycleResult :=
  match env with
  | CycleEnv.cancelled => ⟨st, [], false, false⟩
  | CycleEnv.oserror => ⟨{ st with connected := false }, [Report.wifiDown], false, true⟩
  | CycleEnv.ok succeeds =>
    if st.ssid = "" then
      ⟨st, [Report.wifiDown], false, true⟩
    else if st.wlanConnected then
      if !st.connected then
        ⟨{ st with connected := true }, [Report.wifiUp], false, true⟩
      else
        ⟨st, [], false, true⟩
    else
      if succeeds then
        ⟨{ st with wlanConnected := true, connected := true, failure_count := 0 },
          [Report.wifiUp], true, true⟩
      else
        let st2 := { st with wlanConnected := false, connected := false,
                             failure_count := st.failure_count + 1 }
        if st2.failure_count ≥ max_retries then
          ⟨st2, [Report.wifiDown], true, false⟩
        else
          ⟨st2, [Report.wifiDown], true, true⟩

/-- The `WiFi.grab` loop run over a list of per-iteration environments:
returns the final state, the concatenated `on_state_change` reports, and
the total number of association attempts made.  Once an iteration breaks
out of the loop, the remaining environments are never consumed. -/
def grabRun (st : State) : List CycleEnv → State × List Report × Nat
  | [] => (st, [], 0)
  | e :: es =>
    let r := grabCycle st e
    if r.looping then
      let (st2, reps, n) := grabRun r.state es
      (st2, r.reports ++ reps, (if r.attempted then 1 else 0) + n)
    else
      (r.state, r.reports, if r.attempted then 1 else 0)

/-- `WiFi.update_credentials(ssid, password)`: replaces the cached
credentials, clears the cached connected flag, disconnects the interface,
resets `failure_count` to 0 and reports `wifi=False`. -/
def update_credentials (st : State) (ssid password : String) : State × List Report :=
  ({ st with ssid := ssid, password := password, connected := false,
             wlanConnected := false, failure_count := 0 },
   [Report.wifiDown])

end WiFi

namespace Config

/-- The in-memory JSON document: an association list from keys to string
values (this program only ever stores strings). -/
abbrev Doc := List (String × String)

/-- `d[key] = value` on a JSON object: replace the existing binding or
append a new one. -/
def Doc.setKey : Doc → String → String → Doc
  | [], k, v => [(k, v)]
  | (k0, v0) :: rest, k, v =>
    if k0 = k then (k, v) :: rest else (k0, v0) :: Doc.setKey rest k v

/-- `d.get(key)` on a JSON object. -/
def Doc.getKey : Doc → String → Option String
  | [], _ => none
  | (k0, v0) :: rest, k => if k0 = k then some v0 else Doc.getKey rest k

/-- Content of `config.json` as far as `Config` can observe it: either a
document that parses, or a file whose read fails (`OSError`) or whose
content fails to parse (`ValueError`). -/
inductive FileContent
  | valid (doc : Doc)
  | unreadable
deriving DecidableEq, Repr

/-- The filesystem visible to `Config`: the optional `config.json` file
(`none` = absent) and whether opening it for writing succeeds. -/
structure Fs where
  file : Option FileContent
  writable : Bool
deriving DecidableEq, Repr

/-- A `Config` object: the in-memory `_config` dict plus the filesystem it
reads and writes. -/
structure State where
  _config : Doc
  fs : Fs
deriving DecidableEq, Repr

/-- `self.default_config = {"wifi_ssid": "", "wifi_pass": ""}`. -/
def default_config : Doc := [("wifi_ssid", ""), ("wifi_pass", "")]

/-- `Config._create_default_config`: try to write the default document; on
`OSError` log and fall through; either way `_config` becomes a copy of the
defaults. -/
def _create_default_config (fs : Fs) : State :=
  if fs.writable then
    ⟨default_config, { fs with file := some (FileContent.valid default_config) }⟩
  else
    ⟨default_config, fs⟩

/-- `Config._load_config`: read and parse `config.json`; on `ValueError`
or `OSError` log and fall back to a copy of the defaults. -/
def _load_config (fs : Fs) : State :=
  match fs.file with
  | some (FileContent.valid d) => ⟨d, fs⟩
  | _ => ⟨default_config, fs⟩

/-- `Config.__init__`: create the default document if `config.json` is
absent, otherwise load it. -/
def init (fs : Fs) : State :=
  match fs.file with
  | none => _create_default_config fs
  | some _ => _load_config fs

/-- `Config.save_config`: dump the entire `_config` dict to the file; on
`OSError` log and leave the file as it was. -/
def save_config (st : State) : State :=
  if st.fs.writable then
    { st with fs := { st.fs with file := some (FileContent.valid st._config) } }
  else
    st

/-- `Config.get(key)`. -/
def get (st : State) (key : String) : Option String :=
  Doc.getKey st._config key

/-- `Config.set(key, value)`: update the in-memory dict, then rewrite the
whole document via `save_config`. -/
def set (st : State) (key value : String) : State :=
  save_config { st with _config := Doc.setKey st._config key value }

end Config

namespace EnigmaMachine

/-- The four status booleans held by `EnigmaMachine`. -/
structure Status where
  emBTStat : Bool
  emWifiStat : Bool
  emOnlineStat : Bool
  emMQTTStat : Bool
deriving DecidableEq, Repr

/-- `EnigmaMachine.set_status_cb(bt, wifi, online, mqtt)`: each argument
that is not `None` overwrites its field; each `None` argument leaves its
field unchanged. -/
def set_status_cb (st : Status) (bt wifi online mqtt : Option Bool) : Status :=
  let st := match bt with
    | some b => { st with emBTStat := b }
    | none => st
  let st := match wifi with
    | some b => { st with emWifiStat := b }
    | none => st
  let st := match online with
    | some b => { st with emOnlineStat := b }
    | none => st
  match mqtt with
  | some b => { st with emMQTTStat := b }
  | none => st

/-- The failure raised by `get_status_cb` on an unknown key
(`raise ValueError(...)` in the source; `InvalidStatusKey` in the spec). -/
inductive StatusError
  | InvalidStatusKey
deriving DecidableEq, Repr

/-- `EnigmaMachine.get_status_cb(instance)`: look the key up in the status
mapping; raise on any key outside `{BT, WIFI, ONLINE, MQTT}`. -/
def get_status_cb (st : Status) (key : String) : Except StatusError Bool :=
  if key = "BT" then Except.ok st.emBTStat
  else if key = "WIFI" then Except.ok st.emWifiStat
  else if key = "ONLINE" then Except.ok st.emOnlineStat
  else if key = "MQTT" then Except.ok st.emMQTTStat
  else Except.error StatusError.InvalidStatusKey

/-- State of an `EnigmaMachine` object: the config store, the cached
credential copies, the status booleans and the owned `WiFi` object (whose
`on_state_change` is wired to `set_status_cb`). -/
structure State where
  config : Config.State
  emWifiSSID : String
  emWifiPass : String
  status : Status
  wifi : WiFi.State
deriving DecidableEq, Repr

/-- Deliver `WiFi.Report`s through the wired `on_state_change` callback,
i.e. apply `set_status_cb(wifi=...)` for each report in order. -/
def applyReports (st : Status) : List WiFi.Report → Status
  | [] => st
  | WiFi.Report.wifiUp :: rs => applyReports (set_status_cb st none (some true) none none) rs
  | WiFi.Report.wifiDown :: rs => applyReports (set_status_cb st none (some false) none none) rs

/-- `EnigmaMachine.set_wifi_ssid_cb(ssid)`: when `ssid` is not `None`,
persist it, cache it, persist an empty `wifi_pass` and clear the cached
pass; in every case push the cached credentials into
`WiFi.update_credentials`, whose `wifi=False` report lands in
`set_status_cb`. -/
def set_wifi_ssid_cb (em : State) (ssid : Option String) : State :=
  let em :=
    match ssid with
    | some s =>
      let c1 := Config.set em.config "wifi_ssid" s
      let c2 := Config.set c1 "wifi_pass" ""
      { em with config := c2, emWifiSSID := s, emWifiPass := "" }
    | none => em
  let (w, reps) := WiFi.update_credentials em.wifi em.emWifiSSID em.emWifiPass
  { em with wifi := w, status := applyReports em.status reps }

/-- `EnigmaMachine.set_wifi_pass_cb(password)`: when `password` is not
`None`, persist and cache it; in every case push the cached credentials
into `WiFi.update_credentials`, whose `wifi=False` report lands in
`set_status_cb`. -/
def set_wifi_pass_cb (em : State) (password : Option String) : State :=
  let em :=
    match password with
    | some p =>
      { em with config := Config.set em.config "wifi_pass" p, emWifiPass := p }
    | none => em
  let (w, reps) := WiFi.update_credentials em.wifi em.emWifiSSID em.emWifiPass
  { em with wifi := w, status := applyReports em.status reps }

end EnigmaMachine

/-! ## Helper lemmas -/

/-- Updating a key and reading it back yields the written value. -/
theorem Config.getKey_setKey_self (d : Config.Doc) (k v : String) :
    Config.Doc.getKey (Config.Doc.setKey d k v) k = some v := by
  induction d with
  | nil => simp [Config.Doc.setKey, Config.Doc.getKey]
  | cons hd tl ih =>
    obtain ⟨k0, v0⟩ := hd
    by_cases h : k0 = k
    · simp [Config.Doc.setKey, Config.Doc.getKey, h]
    · simp [Config.Doc.setKey, Config.Doc.getKey, h, ih]

/-- Updating a key leaves every other key's value unchanged. -/
theorem Config.getKey_setKey_ne (d : Config.Doc) (k k2 v : String) (h : k2 ≠ k) :
    Config.Doc.getKey (Config.Doc.setKey d k v) k2 = Config.Doc.getKey d k2 := by
  induction d with
  | nil => simp [Config.Doc.setKey, Config.Doc.getKey, Ne.symm h]
  | cons hd tl ih =>
    obtain ⟨k0, v0⟩ := hd
    by_cases h0 : k0 = k
    · subst h0
      simp [Config.Doc.setKey, Config.Doc.getKey, Ne.symm h]
    · simp [Config.Doc.setKey, Config.Doc.getKey, h0, ih]

/-- The in-memory document after `Config.set` is the updated document,
whether or not the save to disk succeeded. -/
theorem Config.set_config_doc (st : Config.State) (k v : String) :
    (Config.set st k v)._config = Config.Doc.setKey st._config k v := by
  by_cases h : st.fs.writable <;> simp [Config.set, Config.save_config, h]

/-- A `Config.set` call never changes the filesystem's writability. -/
theorem Config.set_writable (st : Config.State) (k v : String) :
    (Config.set st k v).fs.writable = st.fs.writable := by
  by_cases h : st.fs.writable <;> simp [Config.set, Config.save_config, h]

/-- An iteration of `WiFi.grab` that breaks out of the loop ends the run:
the remaining environments are never consumed. -/
theorem WiFi.grabRun_break (st : WiFi.State) (e : WiFi.CycleEnv) (es : List WiFi.CycleEnv)
    (h : (WiFi.grabCycle st e).looping = false) :
    WiFi.grabRun st (e :: es) = WiFi.grabRun st [e] := by
  simp [WiFi.grabRun, h]

/-- A concrete `EnigmaMachine` state used to instantiate witnesses. -/
def emTest : EnigmaMachine.State :=
  { config :=
      { _config := [("wifi_ssid", "oldnet"), ("wifi_pass", "oldsecret")]
        fs :=
          { file := some (Config.FileContent.valid
              [("wifi_ssid", "oldnet"), ("wifi_pass", "oldsecret")])
            writable := true } }
    emWifiSSID := "oldnet"
    emWifiPass := "oldsecret"
    status := ⟨false, false, false, false⟩
    wifi :=
      { ssid := "oldnet", password := "oldsecret", connected := true,
        failure_count := 2, wlanConnected := true } }

/-! ## Claims -/

/-- C1: writing a non-`None` identifier through `set_wifi_ssid_cb` leaves
both the stored secret (`wifi_pass` in the config document, on disk too
when the store is writable) and the cached secret (`emWifiPass`) equal to
the empty string: a fresh identifier is never paired with a stale secret. -/
theorem C1_set_ssid_clears_secret (em : EnigmaMachine.State) (s : String) :
    (EnigmaMachine.set_wifi_ssid_cb em (some s)).emWifiPass = "" ∧
    Config.get (EnigmaMachine.set_wifi_ssid_cb em (some s)).config "wifi_pass" = some "" ∧
    (em.config.fs.writable = true →
      (EnigmaMachine.set_wifi_ssid_cb em (some s)).config.fs.file
        = some (Config.FileContent.valid
            (Config.Doc.setKey (Config.Doc.setKey em.config._config "wifi_ssid" s)
              "wifi_pass" ""))) := by
  refine ⟨?_, ?_, ?_⟩
  · simp [EnigmaMachine.set_wifi_ssid_cb, WiFi.update_credentials]
  · simp [EnigmaMachine.set_wifi_ssid_cb, WiFi.update_credentials, Config.get,
      Config.set, Config.save_config, Config.getKey_setKey_self]
    by_cases h : em.config.fs.writable <;>
      simp [h, Config.getKey_setKey_self]
  · intro hw
    simp [EnigmaMachine.set_wifi_ssid_cb, WiFi.update_credentials, Config.set,
      Config.save_config, hw]

/-- C1 witness: `C1_set_ssid_clears_secret` evaluated on `emTest` with
identifier `"newnet"`, the writability hypothesis discharged. -/
theorem C1_witness :
    (EnigmaMachine.set_wifi_ssid_cb emTest (some "newnet")).emWifiPass = "" ∧
    Config.get (EnigmaMachine.set_wifi_ssid_cb emTest (some "newnet")).config "wifi_pass"
      = some "" ∧
    (EnigmaMachine.set_wifi_ssid_cb emTest (some "newnet")).config.fs.file
      = some (Config.FileContent.valid
          (Config.Doc.setKey (Config.Doc.setKey emTest.config._config "wifi_ssid" "newnet")
            "wifi_pass" "")) :=
  ⟨(C1_set_ssid_clears_secret emTest "newnet").1,
   (C1_set_ssid_clears_secret emTest "newnet").2.1,
   (C1_set_ssid_clears_secret emTest "newnet").2.2 (by decide)⟩

/-- C2: once an association attempt fails with the failure counter already
at `max_retries - 1`, the counter reaches `max_retries = 3`, the `grab`
loop breaks, and a run that continues with any further environments is
identical to the run that stops there; in particular exactly the one
(final) association attempt is ever made from that point on. -/
theorem C2_exhausted_is_terminal (st : WiFi.State) (es : List WiFi.CycleEnv)
    (h1 : st.ssid ≠ "") (h2 : st.wlanConnected = false) (h3 : 2 ≤ st.failure_count) :
    (WiFi.grabCycle st (WiFi.CycleEnv.ok false)).looping = false ∧
    WiFi.grabRun st (WiFi.CycleEnv.ok false :: es)
      = WiFi.grabRun st [WiFi.CycleEnv.ok false] ∧
    (WiFi.grabRun st (WiFi.CycleEnv.ok false :: es)).2.2 = 1 := by
  have hge : WiFi.max_retries ≤ st.failure_count + 1 := by
    unfold WiFi.max_retries; omega
  have hl : (WiFi.grabCycle st (WiFi.CycleEnv.ok false)).looping = false := by
    simp [WiFi.grabCycle, h1, h2, hge]
  refine ⟨hl, WiFi.grabRun_break st _ es hl, ?_⟩
  rw [WiFi.grabRun_break st _ es hl]
  simp [WiFi.grabRun, WiFi.grabCycle, h1, h2, hge]

/-- A concrete `WiFi` state two failed attempts deep, used in witnesses. -/
def wifiTest : WiFi.State :=
  { ssid := "mynet", password := "pw", connected := false,
    failure_count := 2, wlanConnected := false }

/-- C2 witness: a state two failures deep with non-empty credentials and a
disassociated interface; the third failed attempt ends the loop and the
two subsequent environments are never acted on. -/
theorem C2_witness :
    (WiFi.grabCycle wifiTest (WiFi.CycleEnv.ok false)).looping = false ∧
    WiFi.grabRun wifiTest (WiFi.CycleEnv.ok false
        :: [WiFi.CycleEnv.ok true, WiFi.CycleEnv.ok false])
      = WiFi.grabRun wifiTest [WiFi.CycleEnv.ok false] ∧
    (WiFi.grabRun wifiTest (WiFi.CycleEnv.ok false
        :: [WiFi.CycleEnv.ok true, WiFi.CycleEnv.ok false])).2.2 = 1 :=
  C2_exhausted_is_terminal wifiTest [WiFi.CycleEnv.ok true, WiFi.CycleEnv.ok false]
    (by decide) (by decide) (by decide)

/-- C3 counterexample: the byte `0xFF` is not UTF-8 text, yet the observer
loop does not drop the event without invoking the handler — it invokes the
injected handler with `none` (`prop_setter(decoded_data)` runs
unconditionally after the decode). -/
theorem C3_counterexample :
    Utils.decode_utf [0xFF] = none ∧
    BLE.observe_characteristic [BLE.ObsEvent.written [0xFF]]
      = [BLE.ObsAction.logDecodeError, BLE.ObsAction.handlerCall none] := by
  decide

/-- C3 (amended): a non-empty write payload that fails to decode is logged
and the injected handler is invoked with the `None` sentinel; the loop does
not terminate and processes the remaining events exactly as it would have
without this event. -/
theorem C3_decode_failure_keeps_serving (data : List Nat) (rest : List BLE.ObsEvent)
    (h1 : data ≠ []) (h2 : Utils.decode_utf data = none) :
    BLE.observe_characteristic (BLE.ObsEvent.written data :: rest)
      = BLE.ObsAction.logDecodeError :: BLE.ObsAction.handlerCall none
          :: BLE.observe_characteristic rest := by
  simp [BLE.observe_characteristic, h1, h2]

/-- C3 witness: the malformed payload `[0xFF]` followed by a well-formed
write is handled as `logDecodeError`, `handlerCall none`, then the decoded
follow-up write. -/
theorem C3_witness :
    BLE.observe_characteristic
        [BLE.ObsEvent.written [0xFF], BLE.ObsEvent.written [0x41]]
      = [BLE.ObsAction.logDecodeError, BLE.ObsAction.handlerCall none,
         BLE.ObsAction.handlerCall (some "A")] := by
  rw [C3_decode_failure_keeps_serving [0xFF] [BLE.ObsEvent.written [0x41]]
    (by decide) (by decide)]
  decide

/-- C4: `set_status_cb` overwrites exactly the fields whose arguments are
present and leaves the rest alone; in particular `set(wifi=true)` followed
by `set(bt=true)` yields `wifi=true` and `bt=true` with the other two
fields untouched. -/
theorem C4_set_status_frame (st : EnigmaMachine.Status) (bt wifi online mqtt : Option Bool) :
    ((EnigmaMachine.set_status_cb st bt wifi online mqtt).emBTStat = bt.getD st.emBTStat ∧
     (EnigmaMachine.set_status_cb st bt wifi online mqtt).emWifiStat = wifi.getD st.emWifiStat ∧
     (EnigmaMachine.set_status_cb st bt wifi online mqtt).emOnlineStat
        = online.getD st.emOnlineStat ∧
     (EnigmaMachine.set_status_cb st bt wifi online mqtt).emMQTTStat
        = mqtt.getD st.emMQTTStat) ∧
    (EnigmaMachine.set_status_cb
        (EnigmaMachine.set_status_cb st none (some true) none none)
        (some true) none none none
      = { st with emWifiStat := true, emBTStat := true }) := by
  constructor
  · cases bt <;> cases wifi <;> cases online <;> cases mqtt <;>
      simp [EnigmaMachine.set_status_cb]
  · simp [EnigmaMachine.set_status_cb]

/-- C5: `get_status_cb` returns the current boolean for each of the four
valid keys and fails with `InvalidStatusKey` on every other key (the state
is passed by value and is never mutated). -/
theorem C5_get_status_keys (st : EnigmaMachine.Status) (k : String)
    (h1 : k ≠ "BT") (h2 : k ≠ "WIFI") (h3 : k ≠ "ONLINE") (h4 : k ≠ "MQTT") :
    EnigmaMachine.get_status_cb st "BT" = Except.ok st.emBTStat ∧
    EnigmaMachine.get_status_cb st "WIFI" = Except.ok st.emWifiStat ∧
    EnigmaMachine.get_status_cb st "ONLINE" = Except.ok st.emOnlineStat ∧
    EnigmaMachine.get_status_cb st "MQTT" = Except.ok st.emMQTTStat ∧
    EnigmaMachine.get_status_cb st k
      = Except.error EnigmaMachine.StatusError.InvalidStatusKey := by
  refine ⟨?_, ?_, ?_, ?_, ?_⟩ <;>
    simp [EnigmaMachine.get_status_cb, h1, h2, h3, h4]

/-- C5 witness: `C5_get_status_keys` at the all-false snapshot and the
invalid key `"GPS"`. -/
theorem C5_witness :
    EnigmaMachine.get_status_cb ⟨false, false, false, false⟩ "BT" = Except.ok false ∧
    EnigmaMachine.get_status_cb ⟨false, false, false, false⟩ "WIFI" = Except.ok false ∧
    EnigmaMachine.get_status_cb ⟨false, false, false, false⟩ "ONLINE" = Except.ok false ∧
    EnigmaMachine.get_status_cb ⟨false, false, false, false⟩ "MQTT" = Except.ok false ∧
    EnigmaMachine.get_status_cb ⟨false, false, false, false⟩ "GPS"
      = Except.error EnigmaMachine.StatusError.InvalidStatusKey :=
  C5_get_status_keys ⟨false, false, false, false⟩ "GPS"
    (by decide) (by decide) (by decide) (by decide)

/-- C6: `update_credentials` installs exactly the given credentials,
clears the connected flags (forced disassociation), resets
`failure_count` to 0 and reports `wifi=False`; a second call with the same
values does the same again — `failure_count` is 0 after both calls and
neither call can fail. -/
theorem C6_update_credentials_resets (st : WiFi.State) (i s : String) :
    (WiFi.update_credentials st i s).1.ssid = i ∧
    (WiFi.update_credentials st i s).1.password = s ∧
    (WiFi.update_credentials st i s).1.connected = false ∧
    (WiFi.update_credentials st i s).1.wlanConnected = false ∧
    (WiFi.update_credentials st i s).1.failure_count = 0 ∧
    (WiFi.update_credentials st i s).2 = [WiFi.Report.wifiDown] ∧
    (WiFi.update_credentials (WiFi.update_credentials st i s).1 i s).1.failure_count = 0 ∧
    (WiFi.update_credentials (WiFi.update_credentials st i s).1 i s).1
      = (WiFi.update_credentials st i s).1 ∧
    (WiFi.update_credentials (WiFi.update_credentials st i s).1 i s).2
      = [WiFi.Report.wifiDown] := by
  simp [WiFi.update_credentials]

/-- C7: with a non-empty identifier and an associated interface, a `grab`
cycle whose cached `connected` flag is already true changes nothing and
reports nothing, while a cycle whose flag is still false reports
`wifi=True` exactly once — `uplinkUp=true` is reported only on the edge
into the connected state. -/
theorem C7_report_only_on_edge (st : WiFi.State) (b : Bool)
    (h0 : st.ssid ≠ "") (h1 : st.wlanConnected = true) :
    (st.connected = true →
      WiFi.grabCycle st (WiFi.CycleEnv.ok b)
        = ⟨st, [], false, true⟩) ∧
    (st.connected = false →
      (WiFi.grabCycle st (WiFi.CycleEnv.ok b)).reports = [WiFi.Report.wifiUp] ∧
      (WiFi.grabCycle st (WiFi.CycleEnv.ok b)).state.connected = true) := by
  constructor
  · intro hc
    simp [WiFi.grabCycle, h0, h1, hc]
  · intro hc
    simp [WiFi.grabCycle, h0, h1, hc]

/-- C7 witness: `C7_report_only_on_edge` at a steady-state connected
state (no report) and at the freshly associated state (one `wifiUp`
report). -/
theorem C7_witness :
    WiFi.grabCycle ⟨"mynet", "pw", true, 0, true⟩ (WiFi.CycleEnv.ok true)
      = ⟨⟨"mynet", "pw", true, 0, true⟩, [], false, true⟩ ∧
    (WiFi.grabCycle ⟨"mynet", "pw", false, 0, true⟩ (WiFi.CycleEnv.ok true)).reports
      = [WiFi.Report.wifiUp] ∧
    (WiFi.grabCycle ⟨"mynet", "pw", false, 0, true⟩
        (WiFi.CycleEnv.ok true)).state.connected = true :=
  ⟨(C7_report_only_on_edge ⟨"mynet", "pw", true, 0, true⟩ true
      (by decide) (by decide)).1 (by decide),
   (C7_report_only_on_edge ⟨"mynet", "pw", false, 0, true⟩ true
      (by decide) (by decide)).2 (by decide)⟩

/-- C8: `Config` construction creates the default
`{wifi_ssid: "", wifi_pass: ""}` document when the file is absent (and
writes it when the filesystem allows); a load failure of an existing file
falls back to the in-memory defaults without any error escaping; and every
`Config.set` rewrites the whole document, not a patch. -/
theorem C8_config_defaults_and_rewrites (fs : Config.Fs) (st : Config.State) (k v : String) :
    (fs.file = none →
      (Config.init fs)._config = Config.default_config ∧
      (fs.writable = true →
        (Config.init fs).fs.file = some (Config.FileContent.valid Config.default_config))) ∧
    (fs.file = some Config.FileContent.unreadable →
      (Config.init fs)._config = Config.default_config) ∧
    (st.fs.writable = true →
      (Config.set st k v).fs.file
        = some (Config.FileContent.valid (Config.Doc.setKey st._config k v))) := by
  refine ⟨?_, ?_, ?_⟩
  · intro hf
    constructor
    · by_cases hw : fs.writable <;>
        simp [Config.init, Config._create_default_config, hf, hw]
    · intro hw
      simp [Config.init, Config._create_default_config, hf, hw]
  · intro hf
    simp [Config.init, Config._load_config, hf]
  · intro hw
    simp [Config.set, Config.save_config, hw]

/-- C8 witness: `C8_config_defaults_and_rewrites` at an absent writable
file, at an unreadable file, and at a concrete one-key document. -/
theorem C8_witness :
    (Config.init ⟨none, true⟩)._config = Config.default_config ∧
    (Config.init ⟨none, true⟩).fs.file
      = some (Config.FileContent.valid Config.default_config) ∧
    (Config.init ⟨some Config.FileContent.unreadable, true⟩)._config
      = Config.default_config ∧
    (Config.set ⟨[("wifi_ssid", "a")],
        ⟨some (Config.FileContent.valid [("wifi_ssid", "a")]), true⟩⟩ "wifi_pass" "pw").fs.file
      = some (Config.FileContent.valid
          (Config.Doc.setKey [("wifi_ssid", "a")] "wifi_pass" "pw")) :=
  ⟨((C8_config_defaults_and_rewrites ⟨none, true⟩
      ⟨[], ⟨none, true⟩⟩ "" "").1 rfl).1,
   ((C8_config_defaults_and_rewrites ⟨none, true⟩
      ⟨[], ⟨none, true⟩⟩ "" "").1 rfl).2 rfl,
   (C8_config_defaults_and_rewrites ⟨some Config.FileContent.unreadable, true⟩
      ⟨[], ⟨none, true⟩⟩ "" "").2.1 rfl,
   (C8_config_defaults_and_rewrites ⟨none, true⟩
      ⟨[("wifi_ssid", "a")], ⟨some (Config.FileContent.valid [("wifi_ssid", "a")]), true⟩⟩
      "wifi_pass" "pw").2.2 rfl⟩

/-- C9: writing a non-`None` secret through `set_wifi_pass_cb` leaves both
the cached and the stored identifier untouched (a secret write clears
nothing else), installs the secret, and still forces disassociation and
resets `failure_count` to 0 through `update_credentials`. -/
theorem C9_set_pass_preserves_ssid (em : EnigmaMachine.State) (p : String) :
    (EnigmaMachine.set_wifi_pass_cb em (some p)).emWifiSSID = em.emWifiSSID ∧
    Config.get (EnigmaMachine.set_wifi_pass_cb em (some p)).config "wifi_ssid"
      = Config.get em.config "wifi_ssid" ∧
    (EnigmaMachine.set_wifi_pass_cb em (some p)).emWifiPass = p ∧
    Config.get (EnigmaMachine.set_wifi_pass_cb em (some p)).config "wifi_pass" = some p ∧
    (EnigmaMachine.set_wifi_pass_cb em (some p)).wifi.wlanConnected = false ∧
    (EnigmaMachine.set_wifi_pass_cb em (some p)).wifi.connected = false ∧
    (EnigmaMachine.set_wifi_pass_cb em (some p)).wifi.failure_count = 0 := by
  have hne : "wifi_ssid" ≠ "wifi_pass" := by decide
  refine ⟨?_, ?_, ?_, ?_, ?_, ?_, ?_⟩ <;>
    simp [EnigmaMachine.set_wifi_pass_cb, WiFi.update_credentials, Config.get,
      Config.set_config_doc, Config.getKey_setKey_self,
      Config.getKey_setKey_ne _ _ _ _ hne]

/-- C10: an empty write payload is skipped entirely — no decode, no
handler call, the loop just serves the remaining events — while every
non-empty payload reaches the decoder and the handler. -/
theorem C10_empty_payload_skipped (rest : List BLE.ObsEvent) (data : List Nat)
    (h : data ≠ []) :
    BLE.observe_characteristic (BLE.ObsEvent.written [] :: rest)
      = BLE.observe_characteristic rest ∧
    BLE.ObsAction.handlerCall (Utils.decode_utf data)
      ∈ BLE.observe_characteristic (BLE.ObsEvent.written data :: rest) := by
  constructor
  · simp [BLE.observe_characteristic]
  · rcases hd : Utils.decode_utf data with _ | s <;>
      simp [BLE.observe_characteristic, h, hd]

/-- C10 witness: `C10_empty_payload_skipped` at the payload `[0x41]` after
an empty write. -/
theorem C10_witness :
    BLE.observe_characteristic [BLE.ObsEvent.written []] = BLE.observe_characteristic [] ∧
    BLE.ObsAction.handlerCall (Utils.decode_utf [0x41])
      ∈ BLE.observe_characteristic [BLE.ObsEvent.written [0x41]] :=
  C10_empty_payload_skipped [] [0x41] (by decide)
